import Mathlib

/-!
Verification of the OSAE extension's task-orchestration layer.

The definitions below are a shallow embedding of the TypeScript sources:
the webview reducer (`App.tsx` / the richer variant with approval UI),
the `osae.start` command with its poll loop and simulation fallback
(`extension.ts`), the no-fallback variant's `activate` / `spawnPythonServer`,
and `deactivate`.  JSON values are modelled by `JVal`; JavaScript
truthiness, `typeof` checks and `Array.isArray` are modelled explicitly.
-/

/-- A JSON-ish runtime value, as passed through `postMessage` and HTTP bodies. -/
inductive JVal where
  | jnull
  | jbool (b : Bool)
  | jnum (n : Int)
  | jstr (s : String)
  | jarr (xs : List JVal)
  | jobj (fs : List (String × JVal))

/-- First-match field lookup in an object's field list. -/
def lookupField : List (String × JVal) → String → Option JVal
  | [], _ => none
  | (k', v) :: t, k => if k' == k then some v else lookupField t k

/-- Property access `v[k]`: `none` models JavaScript `undefined`. -/
def getField : JVal → String → Option JVal
  | .jobj fs, k => lookupField fs k
  | _, _ => none

/-- Property access combined with the `?? ` operator: a `null` value also
counts as absent (used for `raw.data ?? raw`). -/
def getNN (v : JVal) (k : String) : Option JVal :=
  match getField v k with
  | some .jnull => none
  | o => o

/-- `typeof x === 'string'` refinement of an accessed property. -/
def asStr : Option JVal → Option String
  | some (.jstr s) => some s
  | _ => none

/-- `typeof x === 'number'` refinement of an accessed property. -/
def asNum : Option JVal → Option Int
  | some (.jnum n) => some n
  | _ => none

/-- `Array.isArray(x)` refinement of an accessed property. -/
def asArr : Option JVal → Option (List JVal)
  | some (.jarr xs) => some xs
  | _ => none

/-- JavaScript truthiness of a value. -/
def truthy : JVal → Bool
  | .jnull => false
  | .jbool b => b
  | .jnum n => n != 0
  | .jstr s => s != ""
  | .jarr _ => true
  | .jobj _ => true

/-- Does `h` start with `p`? (character-list version of `String.startsWith`). -/
def leadsWith : List Char → List Char → Bool
  | [], _ => true
  | _ :: _, [] => false
  | a :: as, b :: bs => a == b && leadsWith as bs

/-- Substring search on character lists (the semantics of JS `includes`). -/
def subSearch (p : List Char) : List Char → Bool
  | [] => leadsWith p []
  | c :: t => leadsWith p (c :: t) || subSearch p t

/-- `hay.includes(pat)` for strings. -/
def hasSub (hay pat : String) : Bool :=
  subSearch pat.toList hay.toList

/-- JS `toLowerCase` (character-wise lowering, as `String.toLower` performs,
written over the character list so it reduces by computation). -/
def jsToLower (s : String) : String :=
  ⟨s.toList.map Char.toLower⟩

/-! ## Webview UI snapshot reducer (`App.tsx`, richer variant with approval UI) -/

/-- The `WebviewData` React state: every field is optional, `none` models
`undefined`.  `plan` and `artifacts` hold raw JSON array elements, since the
reducer only checks `Array.isArray`. -/
structure WebviewData where
  prompt : Option String
  plan : Option (List JVal)
  currentStepIndex : Option Int
  artifacts : Option (List JVal)
  next : Option String
  taskId : Option String
  proposedToolCall : Option String
  thought_trace : Option String
  active_model : Option String

/-- The `useState` initializer of `App`. -/
def initWebviewData : WebviewData :=
  { prompt := some ""
    plan := some []
    currentStepIndex := some 0
    artifacts := some []
    next := none
    taskId := none
    proposedToolCall := none
    thought_trace := none
    active_model := none }

/-- `typeof msg.k === 'string' ? msg.k : typeof raw.k === 'string' ? raw.k : prev`. -/
def pickStr (msg raw : JVal) (k : String) (prev : Option String) : Option String :=
  match asStr (getField msg k) with
  | some s => some s
  | none =>
    match asStr (getField raw k) with
    | some s => some s
    | none => prev

/-- `Array.isArray(msg.k) ? msg.k : Array.isArray(raw.k) ? raw.k : prev`. -/
def pickArr (msg raw : JVal) (k : String) (prev : Option (List JVal)) :
    Option (List JVal) :=
  match asArr (getField msg k) with
  | some xs => some xs
  | none =>
    match asArr (getField raw k) with
    | some xs => some xs
    | none => prev

/-- `typeof msg.k === 'number' ? msg.k : typeof raw.k === 'number' ? raw.k : prev`. -/
def pickNum (msg raw : JVal) (k : String) (prev : Option Int) : Option Int :=
  match asNum (getField msg k) with
  | some n => some n
  | none =>
    match asNum (getField raw k) with
    | some n => some n
    | none => prev

/-- `Array.isArray(v.artifacts) && v.artifacts[0] && typeof v.artifacts[0].call === 'string'
? v.artifacts[0].call : ...` — extraction of a proposed tool call from the first artifact. -/
def callOfArtifacts (v : JVal) : Option String :=
  match asArr (getField v "artifacts") with
  | some xs =>
    match xs.head? with
    | some a0 => if truthy a0 then asStr (getField a0 "call") else none
    | none => none
  | none => none

/-- The `proposedToolCall` branch of the reducer: dedicated field on `msg` then
`raw`, then the first artifact's `call` on `msg` then `raw`, else `prev`. -/
def pickProposed (msg raw : JVal) (prev : Option String) : Option String :=
  match asStr (getField msg "proposedToolCall") with
  | some s => some s
  | none =>
    match asStr (getField raw "proposedToolCall") with
    | some s => some s
    | none =>
      match callOfArtifacts msg with
      | some s => some s
      | none =>
        match callOfArtifacts raw with
        | some s => some s
        | none => prev

/-- The `window.message` handler's `setData` update.  `eventData` is
`event.data` (`none` models `undefined`); `raw = event.data ?? \x7b\x7d`,
`msg = raw.data ?? raw`, then each field is replaced only when a value of the
right runtime type is present. -/
def mergeMessage (prev : WebviewData) (eventData : Option JVal) : WebviewData :=
  let raw : JVal :=
    match eventData with
    | none => .jobj []
    | some .jnull => .jobj []
    | some v => v
  let msg : JVal :=
    match getNN raw "data" with
    | some d => d
    | none => raw
  { prompt := pickStr msg raw "prompt" prev.prompt
    plan := pickArr msg raw "plan" prev.plan
    currentStepIndex := pickNum msg raw "currentStepIndex" prev.currentStepIndex
    artifacts := pickArr msg raw "artifacts" prev.artifacts
    next := pickStr msg raw "next" prev.next
    taskId := pickStr msg raw "taskId" prev.taskId
    proposedToolCall := pickProposed msg raw prev.proposedToolCall
    thought_trace := pickStr msg raw "thought_trace" prev.thought_trace
    active_model := pickStr msg raw "active_model" prev.active_model }

/-- `isPausedForApproval`: the `next` value is a string whose lower-casing
contains the sentinel `"executor"`. -/
def isPausedForApproval (next : Option String) : Bool :=
  match next with
  | some s => hasSub (jsToLower s) "executor"
  | none => false

/-- Whether the `ApprovalCard` is rendered for a snapshot (the gate). -/
def gateActive (d : WebviewData) : Bool :=
  isPausedForApproval d.next

/-- Outbound notifications posted by the approval handlers. -/
inductive OutNote where
  | approvalError (message : String)
  | approvalApproved (taskId : String)
  | approvalRejected (taskId : String) (feedback : String)

/-- `handleApprove`: posts an error when `taskId` is missing or the POST
throws, otherwise an approved note.  It never calls `setData`. -/
def handleApprove (d : WebviewData) (fetchOk : Bool) : OutNote :=
  match d.taskId with
  | none => .approvalError "taskId missing for approval"
  | some t => if fetchOk then .approvalApproved t else .approvalError "fetch failed"

/-- `handleReject`: same shape as `handleApprove`, with feedback. -/
def handleReject (d : WebviewData) (feedback : String) (fetchOk : Bool) : OutNote :=
  match d.taskId with
  | none => .approvalError "taskId missing for rejection"
  | some t =>
    if fetchOk then .approvalRejected t feedback else .approvalError "fetch failed"

/-- Events driving the UI component. -/
inductive UiEvent where
  | message (eventData : Option JVal)
  | approveClick (fetchOk : Bool)
  | rejectClick (feedback : String) (fetchOk : Bool)

/-- One step of the UI: an incoming message runs the reducer; an approval
decision only posts a notification (the handlers contain no `setData` call,
so the snapshot passes through unchanged). -/
def uiStep (d : WebviewData) (e : UiEvent) : WebviewData × List OutNote :=
  match e with
  | .message m => (mergeMessage d m, [])
  | .approveClick ok => (d, [handleApprove d ok])
  | .rejectClick fb ok => (d, [handleReject d fb ok])

/-! ## Poll loop (`osae.start` interval callback in `extension.ts`) -/

/-- `json.task_status === 'completed' || json.status === 'completed' ||
json.state === 'completed'` — the terminal check of the poll callback. -/
def isCompleted (j : JVal) : Bool :=
  asStr (getField j "task_status") == some "completed"
  || asStr (getField j "status") == some "completed"
  || asStr (getField j "state") == some "completed"

/-- What a poll tick observed: a parsed JSON response, or a failed tick
(fetch threw, falsy response, or `r.json()` threw — all caught and logged). -/
inductive TickResult where
  | ok (resp : JVal)
  | err

/-- Whether a tick's observation triggers the `clearInterval` branch. -/
def tickCompletes : TickResult → Bool
  | .ok j => isCompleted j
  | .err => false

/-- One scheduled tick of the poll interval.  Input: whether the interval is
still installed; output: (still installed, `clearInterval` called this tick).
After `clearInterval` the callback never runs again, so an inactive loop
ignores the tick. -/
def pollTick (active : Bool) (t : TickResult) : Bool × Bool :=
  if active then
    match t with
    | .err => (true, false)
    | .ok j => if isCompleted j then (false, true) else (true, false)
  else (false, false)

/-- Run the poll loop over a sequence of tick observations, counting how many
times `clearInterval` fires. -/
def pollRun : Bool → List TickResult → Bool × Nat
  | a, [] => (a, 0)
  | a, t :: ts =>
    let s := pollTick a t
    let r := pollRun s.1 ts
    (r.1, (if s.2 then 1 else 0) + r.2)

/-! ## Task creation (`osae.start` command, fallback-enabled `extension.ts`) -/

/-- Outcome of the awaited `POST /task` creation attempt. -/
inductive CreateOutcome where
  | thrown (name : String) (message : String)
  | noResponse
  | response (ok : Bool) (status : Nat) (body : JVal)

/-- The case-insensitive regex `/ECONNREFUSED|connect|failed to fetch|NetworkError/i`
applied to an error message. -/
def networkRegexTest (msg : String) : Bool :=
  let l := jsToLower msg
  hasSub l "econnrefused" || hasSub l "connect"
  || hasSub l "failed to fetch" || hasSub l "networkerror"

/-- `err.name === 'AbortError' || regex.test(msg)` — the connectivity-class
classifier of the catch branch. -/
def isNetworkError (name message : String) : Bool :=
  name == "AbortError" || networkRegexTest message

/-- JS `a || b || c` over possibly-absent object properties: the first truthy
value, if any. -/
def firstTruthy : List (Option JVal) → Option JVal
  | [] => none
  | o :: t =>
    match o with
    | some v => if truthy v then some v else firstTruthy t
    | none => firstTruthy t

/-- `data.task_id || data.id || data.taskId` of the creation response body. -/
def extractTaskId (body : JVal) : Option JVal :=
  firstTruthy [getField body "task_id", getField body "id", getField body "taskId"]

/-- What the `osae.start` command does with a creation outcome. -/
inductive StartAction where
  | createFailed (status : Option Nat)
  | missingTaskId
  | started (taskId : JVal)
  | simulated
  | surfacedError

/-- The control flow of `osae.start` after the creation attempt: non-ok
responses and missing task ids log and return; a task id starts the poll
loop; a thrown error starts the simulation exactly when `isNetworkError`
holds, and is surfaced otherwise. -/
def startTaskAction (o : CreateOutcome) : StartAction :=
  match o with
  | .noResponse => .createFailed none
  | .response ok status body =>
    if ok then
      match extractTaskId body with
      | some t => .started t
      | none => .missingTaskId
    else .createFailed (some status)
  | .thrown name msg =>
    if isNetworkError name msg then .simulated else .surfacedError

/-! ## Orchestrator-level view: the set of installed poll intervals -/

/-- The module-level picture of the extension host: every `osae.start`
invocation that reaches `setInterval` creates a fresh interval bound to its
own task id; no handle to a previous interval is kept or cleared. -/
structure OrchState where
  loops : List JVal

/-- Orchestrator events: an `osae.start` invocation with its creation
outcome, or a tick of the `i`-th installed interval. -/
inductive OrchEvent where
  | start (o : CreateOutcome)
  | tick (i : Nat) (t : TickResult)

/-- Orchestrator step.  A successful start appends a new poll interval —
the source keeps `interval` in a local `const` and never clears an earlier
one — and a tick removes its own interval exactly when the response is
terminal. -/
def orchStep (s : OrchState) (e : OrchEvent) : OrchState :=
  match e with
  | .start o =>
    match startTaskAction o with
    | .started t => { loops := s.loops ++ [t] }
    | _ => s
  | .tick i t =>
    if i < s.loops.length then
      if tickCompletes t then { loops := s.loops.eraseIdx i } else s
    else s

/-! ## Simulation fallback (`startSimulatedTask` in `extension.ts`) -/

/-- The fixed simulated plan. -/
def simulatedPlan : List String := ["Gather context", "Plan actions", "Execute steps"]

/-- The plan as posted in message payloads. -/
def planJ : JVal := .jarr (simulatedPlan.map .jstr)

/-- Messages posted to the webview by the extension host. -/
inductive PostedMsg where
  | taskStarted (task_id : String) (prompt : Option String)
  | taskUpdate (data : JVal)

/-- The payload of a regular simulated progress update. -/
def simUpdData (idx : Nat) : JVal :=
  .jobj [("plan", planJ), ("currentStepIndex", .jnum idx)]

/-- The payload of the final simulated update: it carries all three
terminal-status synonym fields at once. -/
def simFinalData (idx : Nat) : JVal :=
  .jobj [("plan", planJ), ("currentStepIndex", .jnum idx),
         ("status", .jstr "completed"), ("task_status", .jstr "completed"),
         ("state", .jstr "completed")]

/-- The interval ticks of the simulation: each tick (1000 ms apart, tick `idx`
at time `1000 * idx`) increments `idx`, posts a progress update, and when
`idx >= simulatedPlan.length - 1` posts the terminal update and clears the
interval.  `fuel` bounds the recursion; `simulatedPlan.length` ticks always
suffice. -/
def simLoop : Nat → Nat → List (Nat × PostedMsg)
  | 0, _ => []
  | fuel + 1, idx =>
    let upd := (1000 * idx, PostedMsg.taskUpdate (simUpdData idx))
    if simulatedPlan.length - 1 ≤ idx then
      [upd, (1000 * idx, PostedMsg.taskUpdate (simFinalData idx))]
    else upd :: simLoop fuel (idx + 1)

/-- `startSimulatedTask`: posts a synthetic `task_started` (task id derived
from `Date.now()`, passed in as `now`), an initial plan update at step 0,
then the timed interval ticks.  Returns the (time in ms, message) trace. -/
def startSimulatedTask (now : Nat) : List (Nat × PostedMsg) :=
  (0, .taskStarted ("sim-" ++ toString now) (some "Simulated run"))
  :: (0, .taskUpdate (simUpdData 0))
  :: simLoop simulatedPlan.length 1

/-! ## Activation (no-fallback variant: `activate`, `spawnPythonServer`) -/

/-- The environment activation runs in: whether the pinned venv interpreter
file exists, whether the first-run setup script would succeed (exit 0 and
leave the interpreter in place), and whether `spawnSync(pythonExe,
['--version'])` reports status 0. -/
structure LaunchEnv where
  venvExists : Bool
  setupOk : Bool
  versionOk : Bool

/-- What `activate` observably did. -/
structure ActivationResult where
  setupRan : Bool
  processStarted : Bool
  errorNotificationShown : Bool
  commandsRegistered : Bool

/-- `spawnPythonServer` for a venv that exists: the `--version` probe failing
makes the inner code throw, but the function's own surrounding `try` catches
it, logs, and returns `undefined` — so no exception reaches `activate` and no
user-facing notification is shown. -/
def spawnPhase (env : LaunchEnv) (ran : Bool) : ActivationResult :=
  { setupRan := ran
    processStarted := env.versionOk
    errorNotificationShown := false
    commandsRegistered := true }

/-- `activate`: first `ensureAgentServerSetup` (skipped when the interpreter
exists; a failed setup shows an error message and returns before any command
is registered), then `spawnPythonServer`, then command registration. -/
def activateModel (env : LaunchEnv) : ActivationResult :=
  if env.venvExists then
    spawnPhase env false
  else if env.setupOk then
    spawnPhase env true
  else
    { setupRan := true
      processStarted := false
      errorNotificationShown := true
      commandsRegistered := false }

/-! ## Deactivation (`deactivate`) -/

/-- The module-level supervisor state: the stored Python process handle
(modelled by its PID). -/
structure SupState where
  pythonProcess : Option Nat

/-- `deactivate`: if a handle is stored, `kill()` runs inside `try`/`catch`
(`killResult` is its outcome) and the handle is cleared afterwards in either
case; with no handle it only logs.  The result is in `Except` to record
whether an exception escapes. -/
def deactivateModel (s : SupState) (killResult : Except String Unit) :
    Except String SupState :=
  match s.pythonProcess with
  | some _ =>
    match killResult with
    | .ok _ => .ok { pythonProcess := none }
    | .error _ => .ok { pythonProcess := none }
  | none => .ok s

/-! ## Helper lemmas -/

/-- `leadsWith` decides "starts with". -/
theorem leadsWith_iff (p : List Char) : ∀ h : List Char,
    leadsWith p h = true ↔ ∃ t, h = p ++ t := by
  induction p with
  | nil => intro h; simp [leadsWith]
  | cons a as ih =>
    intro h
    cases h with
    | nil => simp [leadsWith]
    | cons b bs =>
      simp only [leadsWith, Bool.and_eq_true, beq_iff_eq, ih, List.cons_append,
        List.cons.injEq]
      constructor
      · rintro ⟨hab, t, ht⟩
        exact ⟨t, hab.symm, ht⟩
      · rintro ⟨t, hba, ht⟩
        exact ⟨hba.symm, t, ht⟩

/-- `subSearch` decides "occurs as a contiguous sublist". -/
theorem subSearch_iff (p : List Char) : ∀ h : List Char,
    subSearch p h = true ↔ ∃ pre suf, h = pre ++ p ++ suf := by
  intro h
  induction h with
  | nil =>
    simp only [subSearch, leadsWith_iff]
    constructor
    · rintro ⟨t, ht⟩
      exact ⟨[], t, by simpa using ht⟩
    · rintro ⟨pre, suf, hps⟩
      rcases List.append_eq_nil.mp hps.symm with ⟨h1, h2⟩
      rcases List.append_eq_nil.mp h1 with ⟨h3, h4⟩
      exact ⟨[], by simp [h3, h4]⟩
  | cons c t ih =>
    simp only [subSearch, Bool.or_eq_true, leadsWith_iff, ih]
    constructor
    · rintro (⟨s, hs⟩ | ⟨pre, suf, hps⟩)
      · exact ⟨[], s, by simp [hs]⟩
      · exact ⟨c :: pre, suf, by simp [hps]⟩
    · rintro ⟨pre, suf, hps⟩
      cases pre with
      | nil => exact Or.inl ⟨suf, by simpa using hps⟩
      | cons c' pre' =>
        simp only [List.cons_append, List.cons.injEq] at hps
        exact Or.inr ⟨pre', suf, hps.2⟩

/-- `hasSub` decides substring occurrence on the underlying character lists. -/
theorem hasSub_iff (hay pat : String) :
    hasSub hay pat = true ↔ ∃ pre suf, hay.toList = pre ++ pat.toList ++ suf := by
  unfold hasSub
  exact subSearch_iff pat.toList hay.toList

/-- A cleared poll loop ignores every further tick. -/
theorem pollRun_inactive (ts : List TickResult) : pollRun false ts = (false, 0) := by
  induction ts with
  | nil => rfl
  | cons t ts ih => simp [pollRun, pollTick, ih]

/-- A non-terminal tick keeps the loop installed and does not clear. -/
theorem pollTick_not_complete (t : TickResult) (h : tickCompletes t = false) :
    pollTick true t = (true, false) := by
  cases t with
  | err => rfl
  | ok j =>
    simp only [tickCompletes] at h
    simp [pollTick, h]

/-- `clearInterval` fires at most once along any tick sequence. -/
theorem pollRun_clears_le_one (a : Bool) (ts : List TickResult) :
    (pollRun a ts).2 ≤ 1 := by
  induction ts generalizing a with
  | nil => simp [pollRun]
  | cons t ts ih =>
    cases a with
    | false => simp [pollRun_inactive]
    | true =>
      cases t with
      | err => simpa [pollRun, pollTick] using ih true
      | ok j =>
        cases hc : isCompleted j with
        | true => simp [pollRun, pollTick, hc, pollRun_inactive]
        | false => simpa [pollRun, pollTick, hc] using ih true

/-- Processing the first terminal response clears the loop exactly once, and
later ticks never reinstall it. -/
theorem pollRun_first_complete (pre : List TickResult) (j : JVal)
    (post : List TickResult) (hpre : ∀ t ∈ pre, tickCompletes t = false)
    (hj : isCompleted j = true) :
    pollRun true (pre ++ .ok j :: post) = (false, 1) := by
  induction pre with
  | nil => simp [pollRun, pollTick, hj, pollRun_inactive]
  | cons t pre' ih =>
    have ht : tickCompletes t = false := hpre t (List.mem_cons_self t pre')
    have ih' := ih fun u hu => hpre u (List.mem_cons_of_mem t hu)
    simp [pollRun, pollTick_not_complete t ht, ih']

/-! ## Claim theorems -/

/-- C1: on an active poll loop, the first response whose `task_status`,
`status` or `state` field equals `"completed"` stops the loop, exactly once
(`clearInterval` fires once on any trace), ticks after cancellation never
restart it, and the three synonymous field names are treated as equivalent —
each alone triggers the terminal check. -/
theorem poll_loop_stops_on_first_completed
    (pre : List TickResult) (j : JVal) (post : List TickResult)
    (hpre : ∀ t ∈ pre, tickCompletes t = false)
    (hj : isCompleted j = true) :
    pollRun true (pre ++ .ok j :: post) = (false, 1)
    ∧ (∀ a ts, (pollRun a ts).2 ≤ 1)
    ∧ (∀ ts, pollRun false ts = (false, 0))
    ∧ (∀ j', isCompleted j' = true ↔
        asStr (getField j' "task_status") = some "completed"
        ∨ asStr (getField j' "status") = some "completed"
        ∨ asStr (getField j' "state") = some "completed")
    ∧ isCompleted (.jobj [("task_status", .jstr "completed")]) = true
    ∧ isCompleted (.jobj [("status", .jstr "completed")]) = true
    ∧ isCompleted (.jobj [("state", .jstr "completed")]) = true := by
  refine ⟨pollRun_first_complete pre j post hpre hj,
    pollRun_clears_le_one, pollRun_inactive, ?_, rfl, rfl, rfl⟩
  intro j'
  simp [isCompleted, Bool.or_eq_true, beq_iff_eq, or_assoc]

/-- C1 witness: a trace with one failed tick and one running tick before the
completed response stops with exactly one `clearInterval`. -/
theorem poll_loop_stops_on_first_completed_witness :
    pollRun true [TickResult.err, .ok (.jobj [("status", .jstr "running")]),
      .ok (.jobj [("task_status", .jstr "completed")]),
      .ok (.jobj [("state", .jstr "completed")])] = (false, 1) := by
  have h := poll_loop_stops_on_first_completed
    [TickResult.err, .ok (.jobj [("status", .jstr "running")])]
    (.jobj [("task_status", .jstr "completed")])
    [.ok (.jobj [("state", .jstr "completed")])]
    (by decide) (by rfl)
  exact h.1

/-- C6 counterexample: a poll response with status `"failed"` does not cancel
the poll timer — the interval stays installed and `clearInterval` does not
fire, because the callback only tests for `"completed"`. -/
theorem failed_status_does_not_cancel :
    pollTick true (.ok (.jobj [("status", .jstr "failed")])) = (true, false)
    ∧ pollTick true (.ok (.jobj [("task_status", .jstr "failed"),
        ("state", .jstr "failed")])) = (true, false) := ⟨rfl, rfl⟩

/-- C6 amended: the poll timer is cancelled exactly when an active tick's
response carries `"completed"` in one of the three status fields; a failed
poll request (or any non-`"completed"` response) leaves the loop installed
and the next tick scheduled. -/
theorem poll_cancel_iff_completed :
    (∀ a t, ((pollTick a t).2 = true ↔
        a = true ∧ ∃ j, t = .ok j ∧ isCompleted j = true)
      ∧ ((pollTick a t).1 = true ↔ a = true ∧ tickCompletes t = false))
    ∧ pollTick true .err = (true, false) := by
  refine ⟨fun a t => ⟨?_, ?_⟩, rfl⟩
  · cases a with
    | false => simp [pollTick]
    | true =>
      cases t with
      | err => simp [pollTick, tickCompletes]
      | ok j =>
        cases hc : isCompleted j with
        | true => simp [pollTick, hc]
        | false => simp [pollTick, hc]
  · cases a with
    | false => simp [pollTick]
    | true =>
      cases t with
      | err => simp [pollTick, tickCompletes]
      | ok j =>
        cases hc : isCompleted j with
        | true => simp [pollTick, hc, tickCompletes]
        | false => simp [pollTick, hc, tickCompletes]

/-- C3: the simulation fallback runs exactly when the creation attempt threw
a connectivity-class error (abort, or a message matching the network regex);
a reachable server answering with status 500 only logs the failure, and a
success response without a task identifier only logs — neither ever
simulates. -/
theorem simulation_only_on_connectivity_failure :
    (∀ o, startTaskAction o = .simulated ↔
      ∃ name msg, o = .thrown name msg ∧ isNetworkError name msg = true)
    ∧ startTaskAction (.response false 500 (.jobj [])) = .createFailed (some 500)
    ∧ startTaskAction (.response true 200 (.jobj [])) = .missingTaskId
    ∧ startTaskAction .noResponse = .createFailed none := by
  refine ⟨?_, rfl, rfl, rfl⟩
  intro o
  cases o with
  | noResponse => simp [startTaskAction]
  | response ok status body =>
    cases ok with
    | false => simp [startTaskAction]
    | true =>
      cases hx : extractTaskId body with
      | none => simp [startTaskAction, hx]
      | some t => simp [startTaskAction, hx]
  | thrown name msg =>
    cases hn : isNetworkError name msg with
    | false => simp [startTaskAction, hn]
    | true =>
      simp only [startTaskAction, hn, if_true]
      constructor
      · intro _
        exact ⟨name, msg, rfl, hn⟩
      · intro _
        trivial

/-- Body of a successful creation response for the task id `"a"`. -/
def outcomeA : CreateOutcome := .response true 200 (.jobj [("task_id", .jstr "a")])

/-- Body of a successful creation response for the task id `"b"`. -/
def outcomeB : CreateOutcome := .response true 200 (.jobj [("task_id", .jstr "b")])

/-- C5 counterexample: starting task `"b"` while task `"a"`'s poll loop is
active leaves both intervals installed — the existing loop is not cancelled,
so two poll timers run concurrently. -/
theorem second_start_keeps_first_loop :
    (orchStep ⟨[]⟩ (.start outcomeA)).loops = [.jstr "a"]
    ∧ (orchStep (orchStep ⟨[]⟩ (.start outcomeA)) (.start outcomeB)).loops
        = [.jstr "a", .jstr "b"]
    ∧ 1 < (orchStep (orchStep ⟨[]⟩ (.start outcomeA)) (.start outcomeB)).loops.length
    := ⟨rfl, rfl, by decide⟩

/-- C5 amended: starting a new task appends a fresh poll interval without
cancelling any existing one (so loops can coexist); an interval is removed
only by its own tick reporting a completed status, and non-terminal ticks
change nothing. -/
theorem start_appends_without_cancelling
    (s : OrchState) (o : CreateOutcome) (t : JVal)
    (h : startTaskAction o = .started t) :
    (orchStep s (.start o)).loops = s.loops ++ [t]
    ∧ (∀ i r, tickCompletes r = false → orchStep s (.tick i r) = s)
    ∧ (∀ i r, i < s.loops.length → tickCompletes r = true →
        (orchStep s (.tick i r)).loops = s.loops.eraseIdx i) := by
  refine ⟨?_, ?_, ?_⟩
  · simp [orchStep, h]
  · intro i r hr
    simp [orchStep, hr]
  · intro i r hi hr
    simp [orchStep, hr, hi]

/-- C5 amended witness: starting task `"b"` with loop `"a"` installed yields
the two-element loop list. -/
theorem start_appends_without_cancelling_witness :
    (orchStep ⟨[.jstr "a"]⟩ (.start outcomeB)).loops = [.jstr "a", .jstr "b"] := by
  have h := start_appends_without_cancelling ⟨[.jstr "a"]⟩ outcomeB (.jstr "b") rfl
  exact h.1

/-- C7: the simulation posts a synthetic `task_started`, then the fixed
3-step plan with the step index advancing by one on each 1000 ms tick; the
final update carries all three terminal-status synonym fields set to
`"completed"` (and satisfies the poll loop's terminal check) and is the last
message before the simulated interval stops. -/
theorem simulated_task_trace (now : Nat) :
    startSimulatedTask now =
      [ (0, .taskStarted ("sim-" ++ toString now) (some "Simulated run")),
        (0, .taskUpdate (simUpdData 0)),
        (1000, .taskUpdate (simUpdData 1)),
        (2000, .taskUpdate (simUpdData 2)),
        (2000, .taskUpdate (simFinalData 2)) ]
    ∧ simulatedPlan.length = 3
    ∧ (∀ idx, asNum (getField (simUpdData idx) "currentStepIndex") = some idx)
    ∧ (∀ idx, asArr (getField (simUpdData idx) "plan")
        = some (simulatedPlan.map .jstr))
    ∧ asStr (getField (simFinalData 2) "status") = some "completed"
    ∧ asStr (getField (simFinalData 2) "task_status") = some "completed"
    ∧ asStr (getField (simFinalData 2) "state") = some "completed"
    ∧ isCompleted (simFinalData 2) = true :=
  ⟨rfl, rfl, fun _ => rfl, fun _ => rfl, rfl, rfl, rfl, rfl⟩

/-- C8 counterexample: with the venv interpreter present but failing the
`--version` probe, activation starts no process, shows no error notification
(`spawnPythonServer` swallows its own throw and returns `undefined`), and
still registers the task commands. -/
theorem unusable_interpreter_registers_commands :
    activateModel { venvExists := true, setupOk := true, versionOk := false }
      = { setupRan := false, processStarted := false,
          errorNotificationShown := false, commandsRegistered := true } := rfl

/-- C8 amended: when the interpreter is missing and first-run setup fails,
activation surfaces a fatal error, starts no process and registers no task
commands; when the interpreter exists but is unusable, no process starts and
no notification is shown, yet the task commands are still registered; a
process starts exactly when the interpreter is obtainable and usable. -/
theorem activation_outcomes (env : LaunchEnv) :
    (env.venvExists = false → env.setupOk = false →
      activateModel env
        = { setupRan := true, processStarted := false,
            errorNotificationShown := true, commandsRegistered := false })
    ∧ (env.venvExists = true → env.versionOk = false →
      activateModel env
        = { setupRan := false, processStarted := false,
            errorNotificationShown := false, commandsRegistered := true })
    ∧ (activateModel env).processStarted
        = ((env.venvExists || env.setupOk) && env.versionOk) := by
  rcases env with ⟨ve, so, vo⟩
  cases ve <;> cases so <;> cases vo <;>
    simp [activateModel, spawnPhase]

/-- C8 amended witness: missing interpreter with failing setup blocks
activation with a fatal error and no commands. -/
theorem activation_outcomes_witness :
    activateModel { venvExists := false, setupOk := false, versionOk := true }
      = { setupRan := true, processStarted := false,
          errorNotificationShown := true, commandsRegistered := false } := by
  have h := activation_outcomes { venvExists := false, setupOk := false, versionOk := true }
  exact h.1 rfl rfl

/-- C9: `deactivate` never lets an exception escape — for any stored handle
and any `kill()` outcome it returns normally with the handle cleared, and a
second invocation (composed through `Except.bind`) is also error-free and
leaves the handle cleared. -/
theorem deactivate_never_raises_and_clears :
    (∀ s k, deactivateModel s k = .ok { pythonProcess := none })
    ∧ (∀ s k k', (deactivateModel s k).bind (fun s' => deactivateModel s' k')
        = .ok { pythonProcess := none }) := by
  constructor
  · intro s k
    rcases s with ⟨_ | p⟩ <;> cases k <;> rfl
  · intro s k k'
    rcases s with ⟨_ | p⟩ <;> cases k <;> cases k' <;> rfl

/-! ## Reducer lemmas for bare-payload messages -/

/-- Property access on an object is field lookup. -/
theorem getField_obj (fs : List (String × JVal)) (k : String) :
    getField (.jobj fs) k = lookupField fs k := rfl

/-- Absent field: the string pick keeps the previous value. -/
theorem pickStr_bare_none (fs : List (String × JVal)) (k : String)
    (prev : Option String) (h : lookupField fs k = none) :
    pickStr (.jobj fs) (.jobj fs) k prev = prev := by
  unfold pickStr
  rw [getField_obj, h]
  rfl

/-- Present string field: the string pick replaces wholesale. -/
theorem pickStr_bare_str (fs : List (String × JVal)) (k s : String)
    (prev : Option String) (h : lookupField fs k = some (.jstr s)) :
    pickStr (.jobj fs) (.jobj fs) k prev = some s := by
  unfold pickStr
  rw [getField_obj, h]
  rfl

/-- Present non-string field: the string pick keeps the previous value. -/
theorem pickStr_bare_wrong (fs : List (String × JVal)) (k : String) (v : JVal)
    (prev : Option String) (h : lookupField fs k = some v)
    (hv : asStr (some v) = none) :
    pickStr (.jobj fs) (.jobj fs) k prev = prev := by
  unfold pickStr
  rw [getField_obj, h, hv]

/-- Absent field: the array pick keeps the previous value. -/
theorem pickArr_bare_none (fs : List (String × JVal)) (k : String)
    (prev : Option (List JVal)) (h : lookupField fs k = none) :
    pickArr (.jobj fs) (.jobj fs) k prev = prev := by
  unfold pickArr
  rw [getField_obj, h]
  rfl

/-- Present array field: the array pick replaces wholesale. -/
theorem pickArr_bare_arr (fs : List (String × JVal)) (k : String)
    (xs : List JVal) (prev : Option (List JVal))
    (h : lookupField fs k = some (.jarr xs)) :
    pickArr (.jobj fs) (.jobj fs) k prev = some xs := by
  unfold pickArr
  rw [getField_obj, h]
  rfl

/-- Present non-array field: the array pick keeps the previous value. -/
theorem pickArr_bare_wrong (fs : List (String × JVal)) (k : String) (v : JVal)
    (prev : Option (List JVal)) (h : lookupField fs k = some v)
    (hv : asArr (some v) = none) :
    pickArr (.jobj fs) (.jobj fs) k prev = prev := by
  unfold pickArr
  rw [getField_obj, h, hv]

/-- Absent field: the number pick keeps the previous value. -/
theorem pickNum_bare_none (fs : List (String × JVal)) (k : String)
    (prev : Option Int) (h : lookupField fs k = none) :
    pickNum (.jobj fs) (.jobj fs) k prev = prev := by
  unfold pickNum
  rw [getField_obj, h]
  rfl

/-- Present number field: the number pick replaces wholesale. -/
theorem pickNum_bare_num (fs : List (String × JVal)) (k : String) (n : Int)
    (prev : Option Int) (h : lookupField fs k = some (.jnum n)) :
    pickNum (.jobj fs) (.jobj fs) k prev = some n := by
  unfold pickNum
  rw [getField_obj, h]
  rfl

/-- Present non-number field: the number pick keeps the previous value. -/
theorem pickNum_bare_wrong (fs : List (String × JVal)) (k : String) (v : JVal)
    (prev : Option Int) (h : lookupField fs k = some v)
    (hv : asNum (some v) = none) :
    pickNum (.jobj fs) (.jobj fs) k prev = prev := by
  unfold pickNum
  rw [getField_obj, h, hv]

/-- With both the dedicated field and `artifacts` absent, the proposed tool
call is retained. -/
theorem pickProposed_bare_none (fs : List (String × JVal))
    (prev : Option String) (hp : lookupField fs "proposedToolCall" = none)
    (ha : lookupField fs "artifacts" = none) :
    pickProposed (.jobj fs) (.jobj fs) prev = prev := by
  unfold pickProposed callOfArtifacts
  rw [getField_obj fs "proposedToolCall", hp, getField_obj fs "artifacts", ha]
  rfl

/-- A present string `proposedToolCall` replaces wholesale. -/
theorem pickProposed_bare_str (fs : List (String × JVal)) (s : String)
    (prev : Option String)
    (hp : lookupField fs "proposedToolCall" = some (.jstr s)) :
    pickProposed (.jobj fs) (.jobj fs) prev = some s := by
  unfold pickProposed
  rw [getField_obj fs "proposedToolCall", hp]
  rfl

/-- With the dedicated field absent and `artifacts` present but not an array,
the proposed tool call is retained. -/
theorem pickProposed_bare_wrongArtifacts (fs : List (String × JVal)) (v : JVal)
    (prev : Option String) (hp : lookupField fs "proposedToolCall" = none)
    (ha : lookupField fs "artifacts" = some v) (hv : asArr (some v) = none) :
    pickProposed (.jobj fs) (.jobj fs) prev = prev := by
  unfold pickProposed callOfArtifacts
  rw [getField_obj fs "proposedToolCall", hp, getField_obj fs "artifacts", ha, hv]
  rfl

/-- A bare-payload message (`data` absent, so `msg = raw`) runs every field
through its pick against the same object. -/
theorem mergeMessage_bare (prev : WebviewData) (fs : List (String × JVal))
    (hbare : lookupField fs "data" = none) :
    mergeMessage prev (some (.jobj fs))
      = { prompt := pickStr (.jobj fs) (.jobj fs) "prompt" prev.prompt
          plan := pickArr (.jobj fs) (.jobj fs) "plan" prev.plan
          currentStepIndex :=
            pickNum (.jobj fs) (.jobj fs) "currentStepIndex" prev.currentStepIndex
          artifacts := pickArr (.jobj fs) (.jobj fs) "artifacts" prev.artifacts
          next := pickStr (.jobj fs) (.jobj fs) "next" prev.next
          taskId := pickStr (.jobj fs) (.jobj fs) "taskId" prev.taskId
          proposedToolCall :=
            pickProposed (.jobj fs) (.jobj fs) prev.proposedToolCall
          thought_trace :=
            pickStr (.jobj fs) (.jobj fs) "thought_trace" prev.thought_trace
          active_model :=
            pickStr (.jobj fs) (.jobj fs) "active_model" prev.active_model } := by
  simp [mergeMessage, getNN, getField, hbare]

/-- C4: the approval card is rendered iff the current snapshot's `next` is a
string containing `"executor"` case-insensitively (as a genuine substring
occurrence); submitting an approval or rejection leaves the snapshot — and
hence the gate — unchanged; only an incoming message can move the gate, and a
later snapshot with `next = "Planner"` clears it while `next = "Executor"`
raises it. -/
theorem approval_gate_iff_executor_substring (d : WebviewData) :
    (gateActive d = true ↔
      ∃ s, d.next = some s ∧
        ∃ pre suf, (jsToLower s).toList = pre ++ "executor".toList ++ suf)
    ∧ (∀ ok, (uiStep d (.approveClick ok)).1 = d)
    ∧ (∀ fb ok, (uiStep d (.rejectClick fb ok)).1 = d)
    ∧ (∀ ok, gateActive (uiStep d (.approveClick ok)).1 = gateActive d)
    ∧ (∀ m, gateActive (uiStep d (.message m)).1
        = isPausedForApproval (mergeMessage d m).next)
    ∧ gateActive (mergeMessage d (some (.jobj [("next", .jstr "Executor")]))) = true
    ∧ gateActive (mergeMessage d (some (.jobj [("next", .jstr "Planner")]))) = false := by
  refine ⟨?_, fun ok => rfl, fun fb ok => rfl, fun ok => rfl, fun m => rfl, rfl, rfl⟩
  cases hn : d.next with
  | none => simp [gateActive, isPausedForApproval, hn]
  | some s => simp [gateActive, isPausedForApproval, hn, hasSub_iff]

/-- Previous snapshot for the C2 counterexample: prompt and proposed tool
call both `"x"`. -/
def prevC2 : WebviewData :=
  { initWebviewData with prompt := some "x", proposedToolCall := some "x" }

/-- Incoming message for the C2 counterexample: it omits `proposedToolCall`
but carries an artifact with an embedded `call` string. -/
def msgC2 : JVal := .jobj [("artifacts", .jarr [.jobj [("call", .jstr "y")]])]

/-- C2 counterexample: a message that omits the `proposedToolCall` field
still overwrites the previously displayed proposed tool call, through the
reducer's fallback to the first artifact's `call` description. -/
theorem omitted_field_clobbered :
    getField msgC2 "proposedToolCall" = none
    ∧ prevC2.proposedToolCall = some "x"
    ∧ (mergeMessage prevC2 (some msgC2)).proposedToolCall = some "y"
    ∧ (mergeMessage prevC2 (some msgC2)).proposedToolCall
        ≠ prevC2.proposedToolCall :=
  ⟨rfl, rfl, rfl, by decide⟩

/-- C2 amended: for a bare-payload update, every snapshot field other than
`proposedToolCall` obeys last-known-good field-level merge — omitted ⇒
previous value retained, included with the right runtime type ⇒ replaced
wholesale (arrays replaced as whole lists, never deep-merged); and
`proposedToolCall` obeys the same rule provided the message also omits
`artifacts`, since a present artifact's `call` string may overwrite it. -/
theorem merge_field_level_replace (prev : WebviewData)
    (fs : List (String × JVal)) (hbare : lookupField fs "data" = none) :
    (lookupField fs "prompt" = none →
      (mergeMessage prev (some (.jobj fs))).prompt = prev.prompt)
    ∧ (∀ s, lookupField fs "prompt" = some (.jstr s) →
      (mergeMessage prev (some (.jobj fs))).prompt = some s)
    ∧ (lookupField fs "plan" = none →
      (mergeMessage prev (some (.jobj fs))).plan = prev.plan)
    ∧ (∀ xs, lookupField fs "plan" = some (.jarr xs) →
      (mergeMessage prev (some (.jobj fs))).plan = some xs)
    ∧ (lookupField fs "currentStepIndex" = none →
      (mergeMessage prev (some (.jobj fs))).currentStepIndex
        = prev.currentStepIndex)
    ∧ (∀ n, lookupField fs "currentStepIndex" = some (.jnum n) →
      (mergeMessage prev (some (.jobj fs))).currentStepIndex = some n)
    ∧ (lookupField fs "artifacts" = none →
      (mergeMessage prev (some (.jobj fs))).artifacts = prev.artifacts)
    ∧ (∀ xs, lookupField fs "artifacts" = some (.jarr xs) →
      (mergeMessage prev (some (.jobj fs))).artifacts = some xs)
    ∧ (lookupField fs "next" = none →
      (mergeMessage prev (some (.jobj fs))).next = prev.next)
    ∧ (∀ s, lookupField fs "next" = some (.jstr s) →
      (mergeMessage prev (some (.jobj fs))).next = some s)
    ∧ (lookupField fs "taskId" = none →
      (mergeMessage prev (some (.jobj fs))).taskId = prev.taskId)
    ∧ (∀ s, lookupField fs "taskId" = some (.jstr s) →
      (mergeMessage prev (some (.jobj fs))).taskId = some s)
    ∧ (lookupField fs "thought_trace" = none →
      (mergeMessage prev (some (.jobj fs))).thought_trace = prev.thought_trace)
    ∧ (∀ s, lookupField fs "thought_trace" = some (.jstr s) →
      (mergeMessage prev (some (.jobj fs))).thought_trace = some s)
    ∧ (lookupField fs "active_model" = none →
      (mergeMessage prev (some (.jobj fs))).active_model = prev.active_model)
    ∧ (∀ s, lookupField fs "active_model" = some (.jstr s) →
      (mergeMessage prev (some (.jobj fs))).active_model = some s)
    ∧ (lookupField fs "proposedToolCall" = none →
        lookupField fs "artifacts" = none →
      (mergeMessage prev (some (.jobj fs))).proposedToolCall
        = prev.proposedToolCall)
    ∧ (∀ s, lookupField fs "proposedToolCall" = some (.jstr s) →
      (mergeMessage prev (some (.jobj fs))).proposedToolCall = some s) := by
  rw [mergeMessage_bare prev fs hbare]
  exact ⟨fun h => pickStr_bare_none fs "prompt" prev.prompt h,
    fun s h => pickStr_bare_str fs "prompt" s prev.prompt h,
    fun h => pickArr_bare_none fs "plan" prev.plan h,
    fun xs h => pickArr_bare_arr fs "plan" xs prev.plan h,
    fun h => pickNum_bare_none fs "currentStepIndex" prev.currentStepIndex h,
    fun n h => pickNum_bare_num fs "currentStepIndex" n prev.currentStepIndex h,
    fun h => pickArr_bare_none fs "artifacts" prev.artifacts h,
    fun xs h => pickArr_bare_arr fs "artifacts" xs prev.artifacts h,
    fun h => pickStr_bare_none fs "next" prev.next h,
    fun s h => pickStr_bare_str fs "next" s prev.next h,
    fun h => pickStr_bare_none fs "taskId" prev.taskId h,
    fun s h => pickStr_bare_str fs "taskId" s prev.taskId h,
    fun h => pickStr_bare_none fs "thought_trace" prev.thought_trace h,
    fun s h => pickStr_bare_str fs "thought_trace" s prev.thought_trace h,
    fun h => pickStr_bare_none fs "active_model" prev.active_model h,
    fun s h => pickStr_bare_str fs "active_model" s prev.active_model h,
    fun hp ha => pickProposed_bare_none fs prev.proposedToolCall hp ha,
    fun s hp => pickProposed_bare_str fs s prev.proposedToolCall hp⟩

/-- Previous snapshot for the C2 amended witness: prompt `"x"`. -/
def prevC2w : WebviewData := { initWebviewData with prompt := some "x" }

/-- Message for the C2 amended witness: only a `plan` array. -/
def fsC2w : List (String × JVal) := [("plan", .jarr [.jstr "a"])]

/-- C2 amended witness: the spec's own example — a snapshot holding prompt
`"x"` that receives an update containing only `plan` retains the prompt and
replaces the plan wholesale. -/
theorem merge_field_level_replace_witness :
    (mergeMessage prevC2w (some (.jobj fsC2w))).prompt = some "x"
    ∧ (mergeMessage prevC2w (some (.jobj fsC2w))).plan = some [.jstr "a"] := by
  have h := merge_field_level_replace prevC2w fsC2w rfl
  exact ⟨h.1 rfl, h.2.2.2.1 [.jstr "a"] rfl⟩

/-- C10: a field present in a bare-payload message with the wrong runtime
type (plan or artifacts not an array, currentStepIndex not a number, prompt
or next not a string) is ignored and the previous value is retained; a
malformed `artifacts` value also cannot clobber the proposed tool call. -/
theorem malformed_fields_ignored (prev : WebviewData)
    (fs : List (String × JVal)) (hbare : lookupField fs "data" = none) :
    (∀ v, lookupField fs "plan" = some v → asArr (some v) = none →
      (mergeMessage prev (some (.jobj fs))).plan = prev.plan)
    ∧ (∀ v, lookupField fs "currentStepIndex" = some v → asNum (some v) = none →
      (mergeMessage prev (some (.jobj fs))).currentStepIndex
        = prev.currentStepIndex)
    ∧ (∀ v, lookupField fs "prompt" = some v → asStr (some v) = none →
      (mergeMessage prev (some (.jobj fs))).prompt = prev.prompt)
    ∧ (∀ v, lookupField fs "next" = some v → asStr (some v) = none →
      (mergeMessage prev (some (.jobj fs))).next = prev.next)
    ∧ (∀ v, lookupField fs "artifacts" = some v → asArr (some v) = none →
      (mergeMessage prev (some (.jobj fs))).artifacts = prev.artifacts)
    ∧ (∀ v, lookupField fs "proposedToolCall" = none →
        lookupField fs "artifacts" = some v → asArr (some v) = none →
      (mergeMessage prev (some (.jobj fs))).proposedToolCall
        = prev.proposedToolCall) := by
  rw [mergeMessage_bare prev fs hbare]
  exact ⟨fun v h hv => pickArr_bare_wrong fs "plan" v prev.plan h hv,
    fun v h hv =>
      pickNum_bare_wrong fs "currentStepIndex" v prev.currentStepIndex h hv,
    fun v h hv => pickStr_bare_wrong fs "prompt" v prev.prompt h hv,
    fun v h hv => pickStr_bare_wrong fs "next" v prev.next h hv,
    fun v h hv => pickArr_bare_wrong fs "artifacts" v prev.artifacts h hv,
    fun v hp ha hv =>
      pickProposed_bare_wrongArtifacts fs v prev.proposedToolCall hp ha hv⟩

/-- Previous snapshot for the C10 witness, with distinctive values. -/
def prevC10 : WebviewData :=
  { prompt := some "p", plan := some [.jstr "s1"], currentStepIndex := some 7,
    artifacts := some [.jstr "art"], next := some "Executor",
    taskId := some "t1", proposedToolCall := some "call0",
    thought_trace := none, active_model := none }

/-- Malformed message for the C10 witness: every field has the wrong type. -/
def fsC10 : List (String × JVal) :=
  [("plan", .jstr "nope"), ("currentStepIndex", .jstr "three"),
   ("prompt", .jnum 5), ("next", .jnum 1), ("artifacts", .jstr "bad")]

/-- C10 witness: the all-malformed update leaves every field of the snapshot
unchanged. -/
theorem malformed_fields_ignored_witness :
    (mergeMessage prevC10 (some (.jobj fsC10))).plan = prevC10.plan
    ∧ (mergeMessage prevC10 (some (.jobj fsC10))).currentStepIndex
        = prevC10.currentStepIndex
    ∧ (mergeMessage prevC10 (some (.jobj fsC10))).prompt = prevC10.prompt
    ∧ (mergeMessage prevC10 (some (.jobj fsC10))).next = prevC10.next
    ∧ (mergeMessage prevC10 (some (.jobj fsC10))).artifacts = prevC10.artifacts
    ∧ (mergeMessage prevC10 (some (.jobj fsC10))).proposedToolCall
        = prevC10.proposedToolCall := by
  have h := malformed_fields_ignored prevC10 fsC10 rfl
  exact ⟨h.1 (.jstr "nope") rfl rfl,
    h.2.1 (.jstr "three") rfl rfl,
    h.2.2.1 (.jnum 5) rfl rfl,
    h.2.2.2.1 (.jnum 1) rfl rfl,
    h.2.2.2.2.1 (.jstr "bad") rfl rfl,
    h.2.2.2.2.2 (.jstr "bad") rfl rfl rfl⟩
